import Mathlib

/-!
# Verification of the ROC-constitution RAG query pipeline

A shallow embedding of `src/query_cli.py` (repository `roc-constitution-gpt`):
the retrieval-and-ranking pipeline `query_constitution`, the provider caches
`get_model` / `get_reranker_model`, and the local-mode branch of `main`.

External collaborators (embedding model, Weaviate hybrid / near-vector search,
cross-encoder reranker, OpenAI chat completion) are modelled as an environment
of pure functions; the pipeline itself is translated statement by statement.
Reranker scores are modelled over `Int` (a linearly ordered, decidable score
type standing in for the floats returned by `CrossEncoder.predict`).
Calls to the external services are counted in the returned outcome so that
"never invokes X" claims are about the code, not about the mock.
-/

namespace RocGpt

/-- Reranker relevance scores (`higher = more relevant`). -/
abbrev Score := Int

/-- Query embeddings; the claims never inspect the numeric contents. -/
abbrev EmbeddingVector := List Int

/-- A candidate record retrieved from Weaviate with
`return_properties=["title", "content", "article", "chapter", "section"]`.
A field holds `none` when the stored object lacks that property
(`properties.get(...)` returns Python `None`). -/
structure PassageRecord where
  title : Option String
  content : Option String
  chapter : Option String
  «section» : Option String
  article : Option String
deriving DecidableEq

/-- Python truthiness of `properties.get(field)`: `None` and `""` are falsy. -/
def truthy : Option String → Bool
  | none => false
  | some s => !s.isEmpty

/-- Python `needle in haystack` substring test on strings. -/
def containsSubstr (s pat : String) : Bool :=
  decide (pat.data <:+: s.data)

/-- The external collaborators of `query_constitution` and `main`:
`model.encode`, `collection.query.hybrid`, `collection.query.near_vector`,
`reranker.predict` (per pair), and the OpenAI chat-completion call, which
either returns an answer or fails with an error message. -/
structure Env where
  encode : String → EmbeddingVector
  hybrid : String → EmbeddingVector → Nat → List PassageRecord
  nearVector : EmbeddingVector → Nat → List PassageRecord
  rerank : String → Option String → Score
  compose : String → String → Except String String

/-- `results = collection.query.hybrid(query, vector, alpha=0.5, limit, ...)`. -/
def hybridObjects (env : Env) (query_text : String) (limit : Nat) : List PassageRecord :=
  env.hybrid query_text (env.encode query_text) limit

/-- `pairs = [(query_text, object.properties.get("content")) for object in results.objects]`. -/
def searchPairs (query_text : String) (objects : List PassageRecord) :
    List (String × Option String) :=
  objects.map (fun o => (query_text, o.content))

/-- `scores = reranker.predict(pairs)`: one relevance score per pair. -/
def rerankScores (env : Env) (query_text : String) (objects : List PassageRecord) :
    List Score :=
  (searchPairs query_text objects).map (fun pr => env.rerank pr.1 pr.2)

/-- The comparator realised by
`sorted(..., key=lambda x: x[1], reverse=True)`: `a` may precede `b`
exactly when `a`'s score is at least `b`'s score; Python's sort is stable,
which `List.mergeSort` with this comparator reproduces. -/
def scoreLE (a b : PassageRecord × Score) : Bool :=
  decide (b.2 ≤ a.2)

/-- `ranked_chunks = sorted(zip(results.objects, scores), key=lambda x: x[1], reverse=True)`. -/
def rankedChunks (env : Env) (query_text : String) (objects : List PassageRecord) :
    List (PassageRecord × Score) :=
  List.mergeSort (objects.zip (rerankScores env query_text objects)) scoreLE

/-- The citation-header-plus-content block built per ranked chunk
(lines 118–129 of `query_cli.py`), as a chain of conditional
`chunk += ...` updates. -/
def formatChunk (p : PassageRecord) : String :=
  let chunk := "--- " ++ p.title.getD "Unknown"
  let chunk := if truthy p.chapter then chunk ++ " | " ++ p.chapter.getD "" else chunk
  let chunk :=
    if truthy p.«section» && p.«section» != p.chapter then
      chunk ++ " | " ++ p.«section».getD ""
    else chunk
  let chunk := if truthy p.article then chunk ++ " | Article " ++ p.article.getD "" else chunk
  chunk ++ " ---\n" ++ p.content.getD ""

/-- `context = "\n\n".join(context_chunks)`. -/
def joinContext (blocks : List String) : String :=
  String.intercalate "\n\n" blocks

/-- The assembled context for a candidate list: ranked blocks joined by blank lines. -/
def contextOf (env : Env) (query_text : String) (objects : List PassageRecord) : String :=
  joinContext ((rankedChunks env query_text objects).map (fun oc => formatChunk oc.1))

/-- The sentinel returned when hybrid search yields nothing. -/
def noResultsMsg : String :=
  "No results found. Please try a different query."

/-- The degraded-response notice prefixed to the raw context on quota errors. -/
def quotaNotice : String :=
  "OpenAI API quota exceeded. Please check your billing details or try again later.\n\nHere's the raw context that was found:\n\n"

/-- `"insufficient_quota" in str(api_error) or "429" in str(api_error)`. -/
def isQuotaError (msg : String) : Bool :=
  containsSubstr msg "insufficient_quota" || containsSubstr msg "429"

/-- Result of one `query_constitution` call, together with how many external
calls of each kind the run performed (`rerankCalls` counts scored pairs).
`result` is `Except.error` when the call raises to its caller. -/
structure QueryOutcome where
  result : Except String String
  hybridCalls : Nat
  nearVectorCalls : Nat
  rerankCalls : Nat
  composeCalls : Nat

/-- `query_constitution(query_text, ..., limit)` (lines 80–153 of
`query_cli.py`): embed, hybrid-search, empty-result sentinel, rerank,
stable descending sort, context assembly, OpenAI call with quota fallback.
The outer `except ... raise` re-raises after printing, so a non-quota
composer failure surfaces as `Except.error`. -/
def query_constitution (env : Env) (query_text : String) (limit : Nat) : QueryOutcome :=
  let objects := hybridObjects env query_text limit
  if objects.isEmpty then
    { result := .ok noResultsMsg
      hybridCalls := 1, nearVectorCalls := 0, rerankCalls := 0, composeCalls := 0 }
  else
    let pairs := searchPairs query_text objects
    let context := contextOf env query_text objects
    match env.compose context query_text with
    | .ok answer =>
      { result := .ok answer
        hybridCalls := 1, nearVectorCalls := 0
        rerankCalls := pairs.length, composeCalls := 1 }
    | .error api_error =>
      if isQuotaError api_error then
        { result := .ok (quotaNotice ++ context)
          hybridCalls := 1, nearVectorCalls := 0
          rerankCalls := pairs.length, composeCalls := 1 }
      else
        { result := .error api_error
          hybridCalls := 1, nearVectorCalls := 0
          rerankCalls := pairs.length, composeCalls := 1 }

/-! ## Provider caches (`get_model`, `get_reranker_model`) -/

/-- A loaded model; `loadId` tags each constructor invocation so distinct
loads are distinguishable instances. -/
structure ModelInstance where
  modelName : String
  loadId : Nat
deriving DecidableEq

/-- The module-level mutable globals `_model_cache` and
`_reranker_model_cache`, plus a running count of model constructions
(`SentenceTransformer(...)` / `CrossEncoder(...)` invocations). -/
structure ProviderCache where
  _model_cache : Option ModelInstance
  _reranker_model_cache : Option ModelInstance
  loads : Nat
deriving DecidableEq

/-- `get_model()`: construct `SentenceTransformer("BAAI/bge-m3")` on first
use, then always return the cached instance. -/
def get_model (s : ProviderCache) : ModelInstance × ProviderCache :=
  match s._model_cache with
  | some m => (m, s)
  | none =>
    let m : ModelInstance := ⟨"BAAI/bge-m3", s.loads⟩
    (m, { s with _model_cache := some m, loads := s.loads + 1 })

/-- `get_reranker_model()`: construct `CrossEncoder("BAAI/bge-reranker-large")`
on first use, then always return the cached instance. -/
def get_reranker_model (s : ProviderCache) : ModelInstance × ProviderCache :=
  match s._reranker_model_cache with
  | some m => (m, s)
  | none =>
    let m : ModelInstance := ⟨"BAAI/bge-reranker-large", s.loads⟩
    (m, { s with _reranker_model_cache := some m, loads := s.loads + 1 })

/-! ## One iteration of `main`'s interactive loop -/

/-- `"-" * 60`. -/
def dash60 : String := String.mk (List.replicate 60 '-')

/-- `"-" * 30`. -/
def dash30 : String := String.mk (List.replicate 30 '-')

/-- The lines printed for the retrieved objects in local mode
(lines 199–203 of `query_cli.py`); `x or ''` on an optional property
yields the property when truthy and `""` otherwise. -/
def localRender (objects : List PassageRecord) : List String :=
  objects.flatMap (fun p =>
    ["--- " ++ p.title.getD "Unknown" ++ " | " ++ p.chapter.getD "" ++
       " | Article " ++ p.article.getD "" ++ " ---",
     p.content.getD "",
     dash30])

/-- What one loop iteration of `main` prints, with the same call counters as
`QueryOutcome`. -/
structure IterOutcome where
  printed : List String
  hybridCalls : Nat
  nearVectorCalls : Nat
  rerankCalls : Nat
  composeCalls : Nat

/-- One iteration of `main`'s loop on a query (lines 183–213 of
`query_cli.py`).  With `--local`, it embeds the query, runs
`collection.query.near_vector`, and prints the raw passages; otherwise it
runs `query_constitution` and prints its result, printing `Error: ...`
when the call raises. -/
def mainIteration (localMode : Bool) (env : Env) (query : String) (limit : Nat) :
    IterOutcome :=
  if localMode then
    let query_vector := env.encode query
    let objects := env.nearVector query_vector limit
    { printed := [dash60] ++ localRender objects ++ [dash60]
      hybridCalls := 0, nearVectorCalls := 1, rerankCalls := 0, composeCalls := 0 }
  else
    let out := query_constitution env query limit
    { printed :=
        match out.result with
        | .ok r => [dash60, r, dash60]
        | .error e => ["Error: " ++ e]
      hybridCalls := out.hybridCalls, nearVectorCalls := out.nearVectorCalls
      rerankCalls := out.rerankCalls, composeCalls := out.composeCalls }

/-! ## Spec-side formulation of the citation header (for the refinement
claim about formatting) -/

/-- The spec's notion of a "present" optional field: an empty field is
treated as absent. -/
def present (f : Option String) : Bool :=
  match f with
  | none => false
  | some s => !s.isEmpty

/-- The spec's "exact string equality" between the section and chapter
fields; an absent field is equal to nothing. -/
def sameString (a b : Option String) : Bool :=
  match a, b with
  | some x, some y => x == y
  | _, _ => false

/-- The citation block as the spec words it: `"--- {title}"`, then
`" | {chapter}"` iff chapter is present, then `" | {section}"` iff section
is present and differs from chapter by exact string equality, then
`" | Article {article}"` iff article is present, then `" ---\n"` and the
content. -/
def formatChunkSpec (p : PassageRecord) : String :=
  "--- " ++ p.title.getD "Unknown"
    ++ (if present p.chapter then " | " ++ p.chapter.getD "" else "")
    ++ (if present p.«section» && !sameString p.«section» p.chapter then
          " | " ++ p.«section».getD ""
        else "")
    ++ (if present p.article then " | Article " ++ p.article.getD "" else "")
    ++ " ---\n" ++ p.content.getD ""

/-- The chapter/section/article middle segment of the code's citation
header, factored out for structural lemmas. -/
def optionalFields (p : PassageRecord) : String :=
  (if truthy p.chapter then " | " ++ p.chapter.getD "" else "")
    ++ (if truthy p.«section» && p.«section» != p.chapter then
          " | " ++ p.«section».getD ""
        else "")
    ++ (if truthy p.article then " | Article " ++ p.article.getD "" else "")

/-! ## Structural lemmas about the citation block -/

theorem formatChunk_eq (p : PassageRecord) :
    formatChunk p =
      "--- " ++ p.title.getD "Unknown" ++ optionalFields p ++ " ---\n"
        ++ p.content.getD "" := by
  unfold formatChunk optionalFields
  split_ifs <;> simp [String.append_assoc]

theorem present_eq_truthy (f : Option String) : present f = truthy f := by
  cases f <;> rfl

theorem sectionCond_eq (se ch : Option String) :
    (present se && !sameString se ch) = (truthy se && se != ch) := by
  cases se <;> cases ch <;> simp [truthy, present, sameString, bne]

/-! ## Structural lemmas about context joining -/

theorem intercalate_go_foldl (sep : String) :
    ∀ (l : List String) (acc : String),
      String.intercalate.go acc sep l =
        l.foldl (fun a x => a ++ sep ++ x) acc
  | [], _ => rfl
  | x :: xs, acc => intercalate_go_foldl sep xs (acc ++ sep ++ x)

theorem joinContext_cons (b : String) (bs : List String) :
    joinContext (b :: bs) = bs.foldl (fun a x => a ++ "\n\n" ++ x) b :=
  intercalate_go_foldl "\n\n" bs b

theorem foldl_join_pull (sep : String) :
    ∀ (l : List String) (a b : String),
      l.foldl (fun acc x => acc ++ sep ++ x) (a ++ b) =
        a ++ l.foldl (fun acc x => acc ++ sep ++ x) b
  | [], _, _ => rfl
  | x :: xs, a, b => by
    have h : a ++ b ++ sep ++ x = a ++ (b ++ sep ++ x) := by
      simp [String.append_assoc]
    rw [List.foldl_cons, List.foldl_cons, h]
    exact foldl_join_pull sep xs a (b ++ sep ++ x)

/-! ## Sorting lemmas -/

theorem scoreLE_trans (a b c : PassageRecord × Score) :
    scoreLE a b → scoreLE b c → scoreLE a c := by
  simp only [scoreLE, decide_eq_true_eq]
  exact fun h₁ h₂ => le_trans h₂ h₁

theorem scoreLE_total (a b : PassageRecord × Score) :
    scoreLE a b || scoreLE b a := by
  simp only [scoreLE, Bool.or_eq_true, decide_eq_true_eq]
  exact le_total b.2 a.2

/-- Stability of `List.mergeSort` in filtered form: if all elements
satisfying `p` are mutually `le`-related, the `p`-sublist of the sorted
output is the `p`-sublist of the input, in the same order. -/
theorem mergeSort_filter_stable {α : Type} {le : α → α → Bool}
    (trans : ∀ a b c : α, le a b → le b c → le a c)
    (total : ∀ a b : α, le a b || le b a)
    (p : α → Bool) (hp : ∀ a b : α, p a → p b → le a b) (l : List α) :
    (List.mergeSort l le).filter p = l.filter p := by
  have hpair : (l.filter p).Pairwise (fun a b => le a b) := by
    apply List.pairwise_of_forall_mem_list
    intro a ha b hb
    exact hp a b (List.of_mem_filter ha) (List.of_mem_filter hb)
  have hsub : List.Sublist (l.filter p) (List.mergeSort l le) :=
    List.sublist_mergeSort trans total hpair (List.filter_sublist l)
  have h2 : List.Sublist (l.filter p) ((List.mergeSort l le).filter p) := by
    have h3 := hsub.filter p
    simpa using h3
  have hlen : ((List.mergeSort l le).filter p).length = (l.filter p).length :=
    ((List.mergeSort_perm l le).filter p).length_eq
  exact (h2.eq_of_length hlen.symm).symm

theorem formatChunkSpec_eq (p : PassageRecord) :
    formatChunkSpec p =
      "--- " ++ p.title.getD "Unknown" ++ optionalFields p ++ " ---\n"
        ++ p.content.getD "" := by
  unfold formatChunkSpec optionalFields
  rw [sectionCond_eq, present_eq_truthy, present_eq_truthy]
  simp [String.append_assoc]

/-! ## The claims -/

/-- C3: for every ranked passage, the rendered citation block is
`"--- {title}"`, then `" | {chapter}"` iff chapter is present, then
`" | {section}"` iff section is present and differs from chapter by exact
string equality, then `" | Article {article}"` iff article is present,
then `" ---"`, a newline, and the passage content; empty optional fields
count as absent, and the field order is always title, chapter, section,
article. -/
theorem c3_citation_header (p : PassageRecord) : formatChunk p = formatChunkSpec p :=
  (formatChunk_eq p).trans (formatChunkSpec_eq p).symm

/-- C4: the assembled context joins the formatted blocks with exactly one
blank line between consecutive blocks — a single block stands alone, and
each additional block contributes exactly one `"\n\n"` separator, with no
separator before the first block or after the last. -/
theorem c4_context_join (b c : String) (cs : List String) :
    joinContext [b] = b ∧
    joinContext (b :: c :: cs) = b ++ "\n\n" ++ joinContext (c :: cs) := by
  refine ⟨rfl, ?_⟩
  rw [joinContext_cons, joinContext_cons, List.foldl_cons]
  exact foldl_join_pull "\n\n" cs (b ++ "\n\n") c

/-- C10: a passage lacking a title renders its citation header with the
literal `"Unknown"` in title position, and a passage lacking content
renders as the citation header followed by an empty body; formatting is
total in both cases. -/
theorem c10_missing_fields (p : PassageRecord) :
    (p.title = none →
      formatChunk p =
        "--- Unknown" ++ (optionalFields p ++ (" ---\n" ++ p.content.getD ""))) ∧
    (p.content = none →
      formatChunk p =
        "--- " ++ p.title.getD "Unknown" ++ optionalFields p ++ " ---\n") := by
  constructor
  · intro ht
    rw [formatChunk_eq, ht]
    rw [show ("--- " ++ (Option.getD none "Unknown") : String) = "--- Unknown" from rfl]
    simp [String.append_assoc]
  · intro hc
    rw [formatChunk_eq, hc]
    simp

/-- C1: the ranked list produced by `query_constitution` sorts the
candidates by reranker score, non-increasing, and candidates with equal
scores keep their relative order from the hybrid-search result (stable
descending sort), for every non-empty candidate list and every score
assignment. -/
theorem c1_stable_descending_sort (env : Env) (q : String) (limit : Nat)
    (h : hybridObjects env q limit ≠ []) :
    List.Sorted (fun a b : Score => b ≤ a)
        ((rankedChunks env q (hybridObjects env q limit)).map Prod.snd) ∧
    ∀ s : Score,
      (rankedChunks env q (hybridObjects env q limit)).filter
          (fun pr => pr.2 == s) =
        ((hybridObjects env q limit).zip
            (rerankScores env q (hybridObjects env q limit))).filter
          (fun pr => pr.2 == s) := by
  constructor
  · have hs :=
      List.sorted_mergeSort scoreLE_trans scoreLE_total
        ((hybridObjects env q limit).zip
          (rerankScores env q (hybridObjects env q limit)))
    exact List.Pairwise.map Prod.snd
      (fun a b hab => by simpa [scoreLE] using hab) hs
  · intro s
    exact mergeSort_filter_stable scoreLE_trans scoreLE_total _
      (fun a b ha hb => by
        simp only [beq_iff_eq] at ha hb
        simp [scoreLE, ha, hb]) _

/-- C7: reranking permutes the candidate list: the ranked passages are a
permutation of the hybrid-search candidates, of the same length — nothing
is added, dropped, or duplicated. -/
theorem c7_rerank_permutation (env : Env) (q : String) (limit : Nat)
    (h : hybridObjects env q limit ≠ []) :
    ((rankedChunks env q (hybridObjects env q limit)).map Prod.fst).Perm
        (hybridObjects env q limit) ∧
    ((rankedChunks env q (hybridObjects env q limit)).map Prod.fst).length =
      (hybridObjects env q limit).length := by
  have hperm :=
    (List.mergeSort_perm
      ((hybridObjects env q limit).zip
        (rerankScores env q (hybridObjects env q limit))) scoreLE).map Prod.fst
  have hzip :
      (((hybridObjects env q limit).zip
          (rerankScores env q (hybridObjects env q limit))).map Prod.fst) =
        hybridObjects env q limit :=
    List.map_fst_zip _ _ (by simp [rerankScores, searchPairs])
  rw [hzip] at hperm
  exact ⟨hperm, hperm.length_eq⟩

/-- C2: when hybrid search returns no candidates, `query_constitution`
returns the "no results" sentinel and performs no reranker scoring and no
generative-model call. -/
theorem c2_empty_no_calls (env : Env) (q : String) (limit : Nat)
    (h : hybridObjects env q limit = []) :
    (query_constitution env q limit).result = .ok noResultsMsg ∧
    (query_constitution env q limit).rerankCalls = 0 ∧
    (query_constitution env q limit).composeCalls = 0 := by
  simp [query_constitution, h]

/-- C9: in local mode, one iteration of `main` performs exactly one
nearest-neighbor search, no hybrid search, no reranker scoring, and no
generative-model call, and prints the raw retrieved passages. -/
theorem c9_local_mode (env : Env) (q : String) (limit : Nat) :
    (mainIteration true env q limit).composeCalls = 0 ∧
    (mainIteration true env q limit).hybridCalls = 0 ∧
    (mainIteration true env q limit).rerankCalls = 0 ∧
    (mainIteration true env q limit).nearVectorCalls = 1 ∧
    (mainIteration true env q limit).printed =
      [dash60] ++ localRender (env.nearVector (env.encode q) limit) ++ [dash60] :=
  ⟨rfl, rfl, rfl, rfl, rfl⟩

/-- How `query_constitution` resolves when candidates exist and the
composer call fails: quota-looking errors degrade to the raw context,
anything else re-raises. -/
theorem query_constitution_error_case (env : Env) (q : String) (limit : Nat)
    (e : String) (hne : hybridObjects env q limit ≠ [])
    (herr : env.compose (contextOf env q (hybridObjects env q limit)) q = .error e) :
    query_constitution env q limit =
      { result :=
          if isQuotaError e then
            .ok (quotaNotice ++ contextOf env q (hybridObjects env q limit))
          else .error e
        hybridCalls := 1, nearVectorCalls := 0
        rerankCalls := (searchPairs q (hybridObjects env q limit)).length
        composeCalls := 1 } := by
  simp only [query_constitution, List.isEmpty_eq_false.mpr hne, Bool.false_eq_true,
    if_false, herr]
  by_cases hq : isQuotaError e = true
  · simp [hq]
  · simp [hq]

/-- C5: a quota/rate-limit failure of the composer is absorbed:
`query_constitution` still returns normally, with a string containing the
explanatory notice and the full raw assembled context. -/
theorem c5_quota_degrade (env : Env) (q : String) (limit : Nat) (e : String)
    (hne : hybridObjects env q limit ≠ [])
    (herr : env.compose (contextOf env q (hybridObjects env q limit)) q = .error e)
    (hquota : isQuotaError e = true) :
    (query_constitution env q limit).result =
        .ok (quotaNotice ++ contextOf env q (hybridObjects env q limit)) ∧
      containsSubstr (quotaNotice ++ contextOf env q (hybridObjects env q limit))
        (contextOf env q (hybridObjects env q limit)) = true ∧
      containsSubstr (quotaNotice ++ contextOf env q (hybridObjects env q limit))
        "OpenAI API quota exceeded" = true := by
  refine ⟨?_, ?_, ?_⟩
  · rw [query_constitution_error_case env q limit e hne herr]
    simp [hquota]
  · apply decide_eq_true
    exact ⟨quotaNotice.data, [], by simp⟩
  · apply decide_eq_true
    rw [show quotaNotice =
        "OpenAI API quota exceeded" ++
          ". Please check your billing details or try again later.\n\nHere's the raw context that was found:\n\n"
      from rfl]
    exact ⟨[],
      (". Please check your billing details or try again later.\n\nHere's the raw context that was found:\n\n"
          ++ contextOf env q (hybridObjects env q limit)).data,
      by simp [List.append_assoc]⟩

/-- C6: a composer failure is treated as a quota condition exactly when
its error text contains `"insufficient_quota"` or `"429"`; any other
failure propagates as the error of the query. -/
theorem c6_quota_classification (env : Env) (q : String) (limit : Nat)
    (e : String) (hne : hybridObjects env q limit ≠ [])
    (herr : env.compose (contextOf env q (hybridObjects env q limit)) q = .error e) :
    (query_constitution env q limit).result =
      (if containsSubstr e "insufficient_quota" || containsSubstr e "429" then
        .ok (quotaNotice ++ contextOf env q (hybridObjects env q limit))
      else .error e) := by
  rw [query_constitution_error_case env q limit e hne herr]
  simp [isQuotaError]

/-- C8: `get_model` and `get_reranker_model` are lazily initialized
once-only caches: a first call constructs and stores the instance
(incrementing the construction count), a call on a populated cache
returns the stored instance unchanged without constructing, a repeated
call is idempotent, and neither getter invalidates either cache. -/
theorem c8_provider_cache (s : ProviderCache) (m : ModelInstance) :
    ((get_model s).2)._model_cache = some (get_model s).1 ∧
    ((get_reranker_model s).2)._reranker_model_cache =
      some (get_reranker_model s).1 ∧
    (s._model_cache = none → (get_model s).2.loads = s.loads + 1) ∧
    (s._reranker_model_cache = none →
      (get_reranker_model s).2.loads = s.loads + 1) ∧
    (s._model_cache = some m → get_model s = (m, s)) ∧
    (s._reranker_model_cache = some m → get_reranker_model s = (m, s)) ∧
    get_model (get_model s).2 = ((get_model s).1, (get_model s).2) ∧
    get_reranker_model (get_reranker_model s).2 =
      ((get_reranker_model s).1, (get_reranker_model s).2) ∧
    ((get_reranker_model s).2)._model_cache = s._model_cache ∧
    ((get_model s).2)._reranker_model_cache = s._reranker_model_cache := by
  obtain ⟨mc, rc, n⟩ := s
  cases mc <;> cases rc <;>
    simp [get_model, get_reranker_model]

/-! ## Concrete instantiations -/

/-- A concrete retrieved passage, shaped like the spec's running example. -/
def pw : PassageRecord :=
  { title := some "ROC Constitution"
    content := some "Some content."
    chapter := some "Chapter 2: Rights"
    «section» := some "Chapter 2: Rights"
    article := some "8" }

/-- A passage with no stored title and no stored content. -/
def pEmpty : PassageRecord :=
  { title := none, content := none
    chapter := some "Chapter 1", «section» := some "General Provisions"
    article := some "2" }

/-- A concrete environment: hybrid search returns one candidate unless the
limit is zero, and the composer always fails with a rate-limit message. -/
def envW : Env :=
  { encode := fun _ => [1]
    hybrid := fun _ _ limit => if limit == 0 then [] else [pw]
    nearVector := fun _ _ => [pw]
    rerank := fun _ c => Int.ofNat (match c with | some s => s.length | none => 0)
    compose := fun _ _ => .error "Error code: 429 - insufficient_quota" }

theorem c1_stable_descending_sort_witness :
    hybridObjects envW "judicial review" 1 ≠ [] ∧
    List.Sorted (fun a b : Score => b ≤ a)
        ((rankedChunks envW "judicial review"
            (hybridObjects envW "judicial review" 1)).map Prod.snd) ∧
    (rankedChunks envW "judicial review"
          (hybridObjects envW "judicial review" 1)).filter
        (fun pr => pr.2 == (0 : Score)) =
      ((hybridObjects envW "judicial review" 1).zip
          (rerankScores envW "judicial review"
            (hybridObjects envW "judicial review" 1))).filter
        (fun pr => pr.2 == (0 : Score)) :=
  ⟨by decide,
   (c1_stable_descending_sort envW "judicial review" 1 (by decide)).1,
   (c1_stable_descending_sort envW "judicial review" 1 (by decide)).2 0⟩

theorem c7_rerank_permutation_witness :
    hybridObjects envW "judicial review" 1 ≠ [] ∧
    ((rankedChunks envW "judicial review"
        (hybridObjects envW "judicial review" 1)).map Prod.fst).Perm
      (hybridObjects envW "judicial review" 1) ∧
    ((rankedChunks envW "judicial review"
        (hybridObjects envW "judicial review" 1)).map Prod.fst).length =
      (hybridObjects envW "judicial review" 1).length :=
  ⟨by decide,
   (c7_rerank_permutation envW "judicial review" 1 (by decide)).1,
   (c7_rerank_permutation envW "judicial review" 1 (by decide)).2⟩

theorem c2_empty_no_calls_witness :
    hybridObjects envW "anything" 0 = [] ∧
    (query_constitution envW "anything" 0).result = .ok noResultsMsg ∧
    (query_constitution envW "anything" 0).rerankCalls = 0 ∧
    (query_constitution envW "anything" 0).composeCalls = 0 :=
  ⟨by decide,
   (c2_empty_no_calls envW "anything" 0 (by decide)).1,
   (c2_empty_no_calls envW "anything" 0 (by decide)).2.1,
   (c2_empty_no_calls envW "anything" 0 (by decide)).2.2⟩

theorem c5_quota_degrade_witness :
    isQuotaError "Error code: 429 - insufficient_quota" = true ∧
    ((query_constitution envW "q" 1).result =
        .ok (quotaNotice ++ contextOf envW "q" (hybridObjects envW "q" 1)) ∧
      containsSubstr (quotaNotice ++ contextOf envW "q" (hybridObjects envW "q" 1))
        (contextOf envW "q" (hybridObjects envW "q" 1)) = true ∧
      containsSubstr (quotaNotice ++ contextOf envW "q" (hybridObjects envW "q" 1))
        "OpenAI API quota exceeded" = true) :=
  ⟨by decide,
   c5_quota_degrade envW "q" 1 "Error code: 429 - insufficient_quota"
     (by decide) rfl (by decide)⟩

theorem c6_quota_classification_witness :
    (query_constitution envW "q" 1).result =
      (if containsSubstr "Error code: 429 - insufficient_quota" "insufficient_quota"
            || containsSubstr "Error code: 429 - insufficient_quota" "429" then
        .ok (quotaNotice ++ contextOf envW "q" (hybridObjects envW "q" 1))
      else .error "Error code: 429 - insufficient_quota") :=
  c6_quota_classification envW "q" 1 "Error code: 429 - insufficient_quota"
    (by decide) rfl

/-- A freshly started process: both caches unset. -/
def cacheFresh : ProviderCache := ⟨none, none, 0⟩

/-- The embedding model instance of the first load. -/
def mA : ModelInstance := ⟨"BAAI/bge-m3", 0⟩

/-- A reranker model instance from some later load. -/
def mB : ModelInstance := ⟨"BAAI/bge-reranker-large", 1⟩

/-- A state in which both caches are populated. -/
def cacheFull : ProviderCache := ⟨some mA, some mB, 2⟩

theorem c8_provider_cache_witness :
    (get_model cacheFresh).2.loads = cacheFresh.loads + 1 ∧
    (get_reranker_model cacheFresh).2.loads = cacheFresh.loads + 1 ∧
    get_model cacheFull = (mA, cacheFull) ∧
    get_reranker_model cacheFull = (mB, cacheFull) ∧
    get_model (get_model cacheFresh).2 =
      ((get_model cacheFresh).1, (get_model cacheFresh).2) :=
  ⟨(c8_provider_cache cacheFresh mA).2.2.1 rfl,
   (c8_provider_cache cacheFresh mA).2.2.2.1 rfl,
   (c8_provider_cache cacheFull mA).2.2.2.2.1 rfl,
   (c8_provider_cache cacheFull mB).2.2.2.2.2.1 rfl,
   (c8_provider_cache cacheFresh mA).2.2.2.2.2.2.1⟩

theorem c10_missing_fields_witness :
    formatChunk pEmpty =
        "--- Unknown" ++ (optionalFields pEmpty ++ (" ---\n" ++ pEmpty.content.getD "")) ∧
    formatChunk pEmpty =
        "--- " ++ pEmpty.title.getD "Unknown" ++ optionalFields pEmpty ++ " ---\n" :=
  ⟨(c10_missing_fields pEmpty).1 rfl, (c10_missing_fields pEmpty).2 rfl⟩

end RocGpt
